import Mathlib

/-!
Verification of the RMS unit-conversion engine and cost-aggregation layer.

The definitions below are a shallow embedding of `UnitConverter` and the
cost-calculation functions of `rms_modern.py`, and of the plate/scaling
routes of `web_app.py`.  Machine floats are modelled as exact rationals;
Python decimal literals are transcribed as the exact rationals they denote.
Python's `round(x, 2)` (round-half-to-even) is modelled by `round2`.
`ValueError` raised by `UnitConverter.convert` is modelled by `Option`
internally and by `Except ConvError` at the public boundary.
-/

namespace RMS

/-- The `unit_aliases` dictionary of `UnitConverter.convert`
(`rms_modern.py` lines 203-221), as an association list in source order. -/
def unit_aliases : List (String × String) :=
  [("T", "T"), ("tbsp", "T"), ("tablespoon", "T"), ("tablespoons", "T"),
   ("tsp", "t"), ("teaspoon", "t"), ("teaspoons", "t"),
   ("c", "C"), ("cup", "C"), ("cups", "C"),
   ("ounce", "oz."), ("ounces", "oz."), ("oz", "oz."),
   ("gal", "Gal."), ("gallon", "Gal."), ("gallons", "Gal."),
   ("qt", "qt."), ("quart", "qt."), ("quarts", "qt."),
   ("pt", "pt."), ("pint", "pt."), ("pints", "pt."),
   ("pound", "lb"), ("pounds", "lb"),
   ("each", "ea"), ("eaches", "ea"),
   ("doz", "doz."), ("dozen", "doz.")]

/-- The `conversion_factors` dictionary of `UnitConverter.__init__`
(`rms_modern.py` lines 93-198), in source order.  The key
`("oz.", "lb")` appears twice in the source with the same value
`0.0625`; `List.lookup` returns the first occurrence, which agrees
with the Python dict (where the second assignment wins). -/
def conversion_factors : List ((String × String) × ℚ) :=
  [(("Gal.", "qt."), 4),
   (("Gal.", "pt."), 8),
   (("Gal.", "C"), 16),
   (("Gal.", "oz."), 128),
   (("Gal.", "T"), 256),
   (("Gal.", "t"), 768),
   (("Gal.", "L"), 378541/100000),
   (("Gal.", "mL"), 378541/100),
   (("Gal.", "lb"), 8),
   (("qt.", "Gal."), 25/100),
   (("qt.", "pt."), 2),
   (("qt.", "C"), 4),
   (("qt.", "oz."), 32),
   (("qt.", "T"), 64),
   (("qt.", "t"), 192),
   (("qt.", "L"), 946353/1000000),
   (("qt.", "mL"), 946353/1000),
   (("qt.", "lb"), 2),
   (("pt.", "Gal."), 125/1000),
   (("pt.", "qt."), 5/10),
   (("pt.", "C"), 2),
   (("pt.", "oz."), 16),
   (("pt.", "T"), 32),
   (("pt.", "t"), 96),
   (("pt.", "L"), 473176/1000000),
   (("pt.", "mL"), 473176/1000),
   (("pt.", "lb"), 1),
   (("C", "Gal."), 625/10000),
   (("C", "qt."), 25/100),
   (("C", "pt."), 5/10),
   (("C", "oz."), 8),
   (("C", "T"), 16),
   (("C", "t"), 48),
   (("C", "L"), 236588/1000000),
   (("C", "mL"), 236588/1000),
   (("C", "lb"), 5/10),
   (("oz.", "Gal."), 78125/10000000),
   (("oz.", "qt."), 3125/100000),
   (("oz.", "pt."), 625/10000),
   (("oz.", "C"), 125/1000),
   (("oz.", "T"), 2),
   (("oz.", "t"), 6),
   (("oz.", "L"), 295735/10000000),
   (("oz.", "mL"), 295735/10000),
   (("oz.", "lb"), 625/10000),
   (("T", "Gal."), 390625/100000000),
   (("T", "qt."), 15625/1000000),
   (("T", "pt."), 3125/100000),
   (("T", "C"), 625/10000),
   (("T", "oz."), 5/10),
   (("T", "t"), 3),
   (("T", "L"), 147868/10000000),
   (("T", "mL"), 147868/10000),
   (("T", "lb"), 3125/100000),
   (("T", "bunch"), 625/10000),
   (("t", "Gal."), 130208/100000000),
   (("t", "qt."), 520833/100000000),
   (("t", "pt."), 104167/10000000),
   (("t", "C"), 208333/10000000),
   (("t", "oz."), 166667/1000000),
   (("t", "T"), 333333/1000000),
   (("t", "L"), 492892/100000000),
   (("t", "mL"), 492892/100000),
   (("t", "lb"), 104167/10000000),
   (("lb", "oz."), 16),
   (("lb", "g"), 453592/1000),
   (("lb", "Kg"), 453592/1000000),
   (("lb", "Gal."), 125/1000),
   (("lb", "qt."), 5/10),
   (("lb", "pt."), 1),
   (("lb", "C"), 2),
   (("lb", "T"), 32),
   (("lb", "t"), 96),
   (("lb", "L"), 453592/1000000),
   (("lb", "mL"), 453592/1000),
   (("oz.", "lb"), 625/10000),
   (("oz.", "g"), 283495/10000),
   (("g", "lb"), 220462/100000000),
   (("g", "oz."), 35274/1000000),
   (("Kg", "lb"), 220462/100000),
   (("L", "Gal."), 264172/1000000),
   (("L", "qt."), 105669/100000),
   (("L", "pt."), 211338/100000),
   (("L", "C"), 422675/100000),
   (("L", "oz."), 33814/1000),
   (("L", "T"), 67628/1000),
   (("L", "t"), 202884/1000),
   (("L", "lb"), 220462/100000),
   (("L", "mL"), 1000),
   (("mL", "Gal."), 264172/1000000000),
   (("mL", "qt."), 105669/100000000),
   (("mL", "pt."), 211338/100000000),
   (("mL", "C"), 422675/100000000),
   (("mL", "oz."), 33814/1000000),
   (("mL", "T"), 67628/1000000),
   (("mL", "t"), 202884/1000000),
   (("mL", "lb"), 220462/100000000),
   (("mL", "L"), 1/1000),
   (("doz.", "ea"), 12),
   (("ea", "doz."), 833333/10000000),
   (("case", "ea"), 24),
   (("ea", "case"), 416667/10000000),
   (("clove", "lb"), 2/100),
   (("lb", "clove"), 50),
   (("tbsp", "clove"), 3),
   (("bunch", "t"), 70),
   (("t", "bunch"), 142857/10000000),
   (("bunch", "T"), 16),
   (("loaf", "slice"), 15),
   (("slice", "loaf"), 666667/10000000),
   (("can", "oz."), 106),
   (("oz.", "can"), 943396/100000000),
   (("can", "C"), 1325/100),
   (("C", "can"), 754717/10000000),
   (("head", "ea"), 10/10),
   (("ea", "head"), 10/10),
   (("ea-cucumber", "oz"), 35/10),
   (("oz", "ea-cucumber"), 2857/10000),
   (("ea-plum-tomato", "oz"), 25/10),
   (("oz", "ea-plum-tomato"), 4/10),
   (("ea-tomato", "oz"), 50/10),
   (("oz", "ea-tomato"), 2/10),
   (("ea-olive", "oz"), 15/100),
   (("oz", "ea-olive"), 667/100),
   (("ea-lemon", "oz"), 35/10),
   (("oz", "ea-lemon"), 2857/10000),
   (("ea-shrimp-16-20", "lb"), 556/10000),
   (("lb", "ea-shrimp-16-20"), 18),
   (("pieces", "each"), 10/10),
   (("each", "pieces"), 10/10),
   (("piece", "each"), 10/10),
   (("each", "piece"), 10/10),
   (("pieces", "ea"), 10/10),
   (("ea", "pieces"), 10/10),
   (("piece", "ea"), 10/10),
   (("ea", "piece"), 10/10),
   (("pinch", "t"), 625/10000),
   (("t", "pinch"), 16),
   (("sprinkle", "t"), 125/1000),
   (("t", "sprinkle"), 8),
   (("dash", "t"), 125/1000),
   (("t", "dash"), 8),
   (("drizzle", "T"), 5/10),
   (("T", "drizzle"), 2),
   (("dollop", "T"), 10/10),
   (("T", "dollop"), 1),
   (("garnish", "t"), 25/100),
   (("t", "garnish"), 4),
   (("sprig", "t"), 125/1000),
   (("t", "sprig"), 8),
   (("dust", "t"), 625/10000),
   (("t", "dust"), 16),
   (("smear", "t"), 5/10),
   (("t", "smear"), 2),
   (("quenelle", "T"), 10/10),
   (("T", "quenelle"), 1),
   (("wedge", "ea"), 25/100),
   (("ea", "wedge"), 4),
   (("half", "ea"), 5/10),
   (("ea", "half"), 2),
   (("quarter", "ea"), 25/100),
   (("ea", "quarter"), 4),
   (("slice", "ea"), 625/10000),
   (("ea", "slice"), 16)]

/-- Alias normalization: `unit_aliases.get(unit, unit)`. -/
def normalizeUnit (u : String) : String :=
  (unit_aliases.lookup u).getD u

/-- Lookup of a registered conversion edge: `conversion_factors[(a, b)]`. -/
def factor (a b : String) : Option ℚ :=
  conversion_factors.lookup (a, b)

/-- Membership test `(a, b) in self.conversion_factors`. -/
def hasEdge (a b : String) : Bool :=
  (factor a b).isSome

/-- The fixed, ordered hub list of the chaining step
(`rms_modern.py` line 238). -/
def intermediates : List String :=
  ["t", "T", "C", "oz.", "oz", "lb", "Gal.", "gal", "ea"]

/-- The chaining loop of `UnitConverter.convert` (lines 239-247),
parameterized by the recursive converter `conv`.  A `ValueError`
raised by either recursive call is caught and the loop continues with
the next hub; this is the `none` case of `conv`. -/
def chainWith (conv : ℚ → String → String → Option ℚ)
    (q : ℚ) (f t : String) : List String → Option ℚ
  | [] => none
  | h :: rest =>
    if ((hasEdge f h || hasEdge h f) && (hasEdge h t || hasEdge t h)) = true then
      match conv q f h with
      | none => chainWith conv q f t rest
      | some temp =>
        match conv temp h t with
        | none => chainWith conv q f t rest
        | some r => some r
    else chainWith conv q f t rest

/-- Fuelled embedding of `UnitConverter.convert` (lines 200-249):
alias normalization of both units, identity short-circuit, direct
edge, reverse edge, then one round of chaining whose recursive calls
re-enter the full algorithm.  The fuel bounds the recursion depth;
the Python recursion never exceeds depth 3 on the registered tables,
so any fuel from 3 on gives the function the source computes. -/
def convertAux : Nat → ℚ → String → String → Option ℚ
  | 0, _, _, _ => none
  | n + 1, q, fromUnit, toUnit =>
    if normalizeUnit fromUnit = normalizeUnit toUnit then some q
    else
      match factor (normalizeUnit fromUnit) (normalizeUnit toUnit) with
      | some c => some (q * c)
      | none =>
        match factor (normalizeUnit toUnit) (normalizeUnit fromUnit) with
        | some c => some (q / c)
        | none =>
          chainWith (convertAux n) q (normalizeUnit fromUnit) (normalizeUnit toUnit)
            intermediates

/-- The `ValueError` raised at line 249; it carries the (normalized)
unit names interpolated into the message. -/
inductive ConvError where
  | noConversion (fromUnit toUnit : String)
deriving DecidableEq, Repr

/-- Equality of `Except` results is decidable when both components are. -/
instance instExceptDecEq {ε α : Type} [DecidableEq ε] [DecidableEq α] :
    DecidableEq (Except ε α) := fun x y =>
  match x, y with
  | Except.ok a, Except.ok b =>
    if h : a = b then isTrue (by rw [h]) else
      isFalse (fun hc => h (Except.ok.inj hc))
  | Except.error a, Except.error b =>
    if h : a = b then isTrue (by rw [h]) else
      isFalse (fun hc => h (Except.error.inj hc))
  | Except.ok _, Except.error _ => isFalse (fun hc => Except.noConfusion hc)
  | Except.error _, Except.ok _ => isFalse (fun hc => Except.noConfusion hc)

/-- Public entry point of the conversion engine. -/
def convert (q : ℚ) (fromUnit toUnit : String) : Except ConvError ℚ :=
  match convertAux 9 q fromUnit toUnit with
  | some r => Except.ok r
  | none => Except.error (ConvError.noConversion (normalizeUnit fromUnit) (normalizeUnit toUnit))

/-- One iteration of the chaining loop for a single hub: the guard at
lines 241-242 (raw-name key tests), then the two recursive conversions
at lines 244-245; `none` models the caught `ValueError`. -/
def chainStep (n : Nat) (q : ℚ) (f t h : String) : Option ℚ :=
  if ((hasEdge f h || hasEdge h f) && (hasEdge h t || hasEdge t h)) = true then
    match convertAux n q f h with
    | none => none
    | some temp => convertAux n temp h t
  else none

/-- Python's `round(x, 2)` rounds to the nearest integer multiple of
`0.01` with ties going to the even multiple (banker's rounding); this
is the integer-level tie-to-even rule. -/
def roundHalfEven (q : ℚ) : ℤ :=
  if q - ⌊q⌋ < 1/2 then ⌊q⌋
  else if 1/2 < q - ⌊q⌋ then ⌊q⌋ + 1
  else if ⌊q⌋ % 2 = 0 then ⌊q⌋ else ⌊q⌋ + 1

/-- Embedding of Python's `round(x, 2)` on an exact rational. -/
def round2 (q : ℚ) : ℚ :=
  (roundHalfEven (q * 100) : ℚ) / 100

/-- Modelled from the spec: "round to 2 decimal places, standard
half-up rounding" (§4.2 step 4).  This is the rounding rule the spec
asserts; it is compared against the source's `round2` above. -/
def roundHalfUp2 (q : ℚ) : ℚ :=
  (⌊q * 100 + 1/2⌋ : ℚ) / 100

/-- A joined cost row `(ingredient_name, quantity, unit,
cost_per_recipe_unit, recipe_unit)` as produced by the SQL join in
`calculate_recipe_cost` / `calculate_plate_cost`. -/
structure CostLine where
  name : String
  quantity : ℚ
  unit : String
  cost_per_recipe_unit : ℚ
  recipe_unit : String
deriving Repr

/-- A per-line entry of the `ingredient_breakdown` list. -/
structure LineOut where
  name : String
  quantity : ℚ
  unit : String
  cost : ℚ
deriving Repr

/-- Per-line pricing of `calculate_recipe_cost` (`rms_modern.py`
lines 608-634): convert when the stored unit differs from the recipe
unit, price, round with the sub-cent clamp; on a conversion
`ValueError`, fall back to `cost_per_recipe_unit * quantity` with an
unconditional `$0.01` minimum (and a printed warning). -/
def recipeLineCost (l : CostLine) : ℚ :=
  match (if l.unit ≠ l.recipe_unit then convert l.quantity l.unit l.recipe_unit
         else Except.ok l.quantity) with
  | Except.ok converted_quantity =>
    let ingredient_cost := l.cost_per_recipe_unit * converted_quantity
    if 0 < ingredient_cost ∧ ingredient_cost < 1/100 then 1/100
    else round2 ingredient_cost
  | Except.error _ =>
    let ingredient_cost := l.cost_per_recipe_unit * l.quantity
    if ingredient_cost < 1/100 then 1/100
    else round2 ingredient_cost

/-- The `ZeroDivisionError` Python raises at line 649 when a recipe
has `servings = 0`.  (`Recipe not found` is an input-layer error and
is outside this embedding: rows are passed in directly.) -/
inductive CostError where
  | zeroDivision
deriving DecidableEq, Repr

/-- The dictionary returned by `calculate_recipe_cost`
(lines 651-660). -/
structure RecipeCostResult where
  servings : ℚ
  ingredient_cost : ℚ
  prep_factor : ℚ
  prep_factor_cost : ℚ
  total_cost : ℚ
  cost_per_serving : ℚ
  ingredient_breakdown : List LineOut
deriving Repr

/-- Embedding of `DatabaseManager.calculate_recipe_cost`
(lines 578-660) over the joined rows.  `prep_factor` is `None` when
the column is NULL and defaults to `0.10` (lines 590-591).  The
division at line 649 raises `ZeroDivisionError` when `servings = 0`;
no other validation of `servings` is performed by the source. -/
def calculate_recipe_cost (servings : ℚ) (prep_factor? : Option ℚ)
    (rows : List CostLine) : Except CostError RecipeCostResult :=
  let prep_factor := prep_factor?.getD (10/100)
  let total_cost := (rows.map recipeLineCost).sum
  let prep_factor_cost := total_cost * prep_factor
  let total_with_prep := total_cost + prep_factor_cost
  if servings = 0 then Except.error CostError.zeroDivision
  else Except.ok
    { servings := servings
      ingredient_cost := round2 total_cost
      prep_factor := prep_factor
      prep_factor_cost := round2 prep_factor_cost
      total_cost := round2 total_with_prep
      cost_per_serving := round2 (total_with_prep / servings)
      ingredient_breakdown :=
        rows.map (fun l => ⟨l.name, l.quantity, l.unit, recipeLineCost l⟩) }

/-- Per-line pricing of `calculate_plate_cost` (lines 848-883).  The
success path matches the recipe path, but the `except` branch records
a cost of `0.0` for the line (and adds nothing to the running total)
instead of applying the fallback pricing rule. -/
def plateLineCost (l : CostLine) : ℚ :=
  match (if l.unit ≠ l.recipe_unit then convert l.quantity l.unit l.recipe_unit
         else Except.ok l.quantity) with
  | Except.ok converted_quantity =>
    let ingredient_cost := converted_quantity * l.cost_per_recipe_unit
    if 0 < ingredient_cost ∧ ingredient_cost < 1/100 then 1/100
    else round2 ingredient_cost
  | Except.error _ => 0

/-- The dictionary returned by `calculate_plate_cost`
(lines 894-903). -/
structure PlateCostResult where
  ingredient_cost : ℚ
  q_factor : ℚ
  q_factor_cost : ℚ
  total_cost : ℚ
  ingredient_breakdown : List LineOut
deriving Repr

/-- Embedding of `DatabaseManager.calculate_plate_cost`
(lines 824-903): prices only the plate's own direct ingredient rows
(sub-recipe costs are added separately by `web_app.plate_detail`, per
the NOTE at lines 885-887), then applies the hard-coded `q_factor =
0.04`.  The function never propagates a conversion error: the
`except` branch records the line at cost `0.0`. -/
def calculate_plate_cost (rows : List CostLine) : PlateCostResult :=
  let total_ingredient_cost := (rows.map plateLineCost).sum
  let q_factor : ℚ := 4/100
  let q_factor_cost := total_ingredient_cost * q_factor
  { ingredient_cost := round2 total_ingredient_cost
    q_factor := q_factor
    q_factor_cost := round2 q_factor_cost
    total_cost := round2 (total_ingredient_cost + q_factor_cost)
    ingredient_breakdown :=
      rows.map (fun l => ⟨l.name, l.quantity, l.unit, plateLineCost l⟩) }

/-- A recipe as needed by the plate-detail cost computation: its
stored `servings`, nullable `prep_factor`, and its joined ingredient
rows. -/
structure SubRecipe where
  name : String
  servings : ℚ
  prep_factor? : Option ℚ
  rows : List CostLine
deriving Repr

/-- A `plate_recipes` row joined with its recipe: `(recipe_name,
servings, quantity, unit)` where `quantity` and `unit` are nullable
(`web_app.py` lines 980-986). -/
structure PlateRecipeRow where
  recipe : SubRecipe
  servings : ℚ
  quantity? : Option ℚ
  unit? : Option String
deriving Repr

/-- The serving count a plate consumes of a sub-recipe
(`web_app.py` lines 990-1017): the explicit `quantity` when both
`quantity` and `unit` are truthy (Python truthiness: non-NULL,
non-zero number, non-empty string), else the stored `servings`.  Both
source branches of the inner `unit.lower()` test multiply
`cost_per_serving` by `quantity`, so the consumed amount does not
depend on the unit spelling. -/
def quantityConsumed (row : PlateRecipeRow) : ℚ :=
  match row.quantity?, row.unit? with
  | some q, some u => if q ≠ 0 ∧ u ≠ "" then q else row.servings
  | _, _ => row.servings

/-- A sub-recipe's cost contribution to a plate (`web_app.py`
lines 988-1018): `cost_per_serving * quantityConsumed`, where
`cost_per_serving` comes from `calculate_recipe_cost` (which can
raise on `servings = 0`). -/
def recipeContribution (row : PlateRecipeRow) : Except CostError ℚ :=
  (calculate_recipe_cost row.recipe.servings row.recipe.prep_factor? row.recipe.rows).map
    (fun cd => cd.cost_per_serving * quantityConsumed row)

/-- The loop of `web_app.plate_detail` over `plate_recipes` rows
(lines 985-1018), collecting each sub-recipe's contribution in order;
a `ZeroDivisionError` raised while costing any sub-recipe propagates
(the route's `except` handler aborts the whole page). -/
def recipeContribs : List PlateRecipeRow → Except CostError (List ℚ)
  | [] => Except.ok []
  | row :: rest => do
    let c ← recipeContribution row
    let cs ← recipeContribs rest
    pure (c :: cs)

/-- The `cost_data` dictionary built by `web_app.plate_detail`
(lines 1030-1038), cost fields only. -/
structure PlateDetailCost where
  recipe_cost : ℚ
  ingredient_cost : ℚ
  subtotal : ℚ
  q_factor : ℚ
  q_factor_cost : ℚ
  total_cost : ℚ
deriving Repr

/-- Embedding of the cost computation of `web_app.plate_detail`
(lines 976-1038): sum of sub-recipe contributions, plus the direct
ingredient cost from `calculate_plate_cost`, then the Q-factor
(plate's own `q_factor`, defaulting to `0.04` when NULL, line 970)
applied to the subtotal. -/
def plate_detail (q_factor? : Option ℚ) (plate_recipes : List PlateRecipeRow)
    (plate_rows : List CostLine) : Except CostError PlateDetailCost := do
  let q_factor := q_factor?.getD (4/100)
  let contribs ← recipeContribs plate_recipes
  let total_recipe_cost := contribs.sum
  let direct_ingredient_cost := (calculate_plate_cost plate_rows).ingredient_cost
  let subtotal := total_recipe_cost + direct_ingredient_cost
  let q_factor_cost := subtotal * q_factor
  pure { recipe_cost := total_recipe_cost
         ingredient_cost := direct_ingredient_cost
         subtotal := subtotal
         q_factor := q_factor
         q_factor_cost := q_factor_cost
         total_cost := subtotal + q_factor_cost }

/-- The `scaled_data` dictionary of the whole-unit branch of
`web_app.scale_recipe` (lines 797-823), cost fields only. -/
structure WholeUnitScale where
  original_servings : ℤ
  new_servings : ℤ
  actual_servings : ℤ
  units_needed : ℤ
  scale_factor : ℤ
  scaled_ingredient_cost : ℚ
  prep_factor_cost : ℚ
  scaled_cost : ℚ
  cost_per_serving : ℚ
  waste_servings : ℤ
deriving Repr

/-- Embedding of the whole-unit branch of `web_app.scale_recipe`
(lines 797-823): Python's `//` is floor division (`Int.fdiv`);
`ingredient_cost` and `prep_factor` come from the recipe's
`calculate_recipe_cost` dictionary. -/
def scale_recipe_whole_unit (base_servings : ℤ) (ingredient_cost prep_factor : ℚ)
    (target : ℤ) : WholeUnitScale :=
  let units_needed := Int.fdiv (target + base_servings - 1) base_servings
  let actual_servings := units_needed * base_servings
  let scaled_ingredient_cost := ingredient_cost * (units_needed : ℚ)
  let scaled_prep_cost := scaled_ingredient_cost * prep_factor
  let scaled_total := scaled_ingredient_cost + scaled_prep_cost
  { original_servings := base_servings
    new_servings := target
    actual_servings := actual_servings
    units_needed := units_needed
    scale_factor := units_needed
    scaled_ingredient_cost := round2 scaled_ingredient_cost
    prep_factor_cost := round2 scaled_prep_cost
    scaled_cost := round2 scaled_total
    cost_per_serving := round2 (scaled_total / (actual_servings : ℚ))
    waste_servings := actual_servings - target }

/-! Helper lemmas shared by the claim theorems below. -/

theorem lookup_mem {k : String × String} {c : ℚ} :
    ∀ {l : List ((String × String) × ℚ)}, l.lookup k = some c → (k, c) ∈ l := by
  intro l
  induction l with
  | nil => intro h; simp [List.lookup] at h
  | cons p rest ih =>
    obtain ⟨k', v⟩ := p
    intro h
    rw [List.lookup] at h
    by_cases hk : k == k'
    · rw [hk] at h
      obtain rfl : v = c := by simpa using h
      obtain rfl : k = k' := by simpa using hk
      exact List.mem_cons_self _ _
    · rw [Bool.not_eq_true] at hk
      rw [hk] at h
      exact List.mem_cons_of_mem _ (ih h)

theorem conversion_factors_pos : ∀ p ∈ conversion_factors, (0 : ℚ) < p.2 := by
  simp only [conversion_factors, List.forall_mem_cons, List.not_mem_nil,
    false_implies, implies_true, and_true]
  norm_num

theorem factor_pos {a b : String} {c : ℚ} (h : factor a b = some c) : 0 < c :=
  conversion_factors_pos _ (lookup_mem h)

theorem chainWith_cons (conv : ℚ → String → String → Option ℚ)
    (q : ℚ) (f t h : String) (rest : List String) :
    chainWith conv q f t (h :: rest) =
      if ((hasEdge f h || hasEdge h f) && (hasEdge h t || hasEdge t h)) = true then
        match conv q f h with
        | none => chainWith conv q f t rest
        | some temp =>
          match conv temp h t with
          | none => chainWith conv q f t rest
          | some r => some r
      else chainWith conv q f t rest := rfl

theorem chainWith_eq_step (n : Nat) (q : ℚ) (f t : String) (h : String)
    (rest : List String) :
    chainWith (convertAux n) q f t (h :: rest) =
      match chainStep n q f t h with
      | some r => some r
      | none => chainWith (convertAux n) q f t rest := by
  rw [chainWith_cons]
  unfold chainStep
  by_cases hg : ((hasEdge f h || hasEdge h f) && (hasEdge h t || hasEdge t h)) = true
  · rw [if_pos hg, if_pos hg]
    cases h1 : convertAux n q f h with
    | none => simp only [h1]
    | some temp =>
      simp only [h1]
      cases h2 : convertAux n temp h t <;> simp only [h2]
  · rw [if_neg hg, if_neg hg]

theorem chainWith_none (conv : ℚ → String → String → Option ℚ) (q : ℚ) (f t : String) :
    ∀ l : List String,
      (∀ h ∈ l, ((hasEdge f h || hasEdge h f) && (hasEdge h t || hasEdge t h)) = false) →
      chainWith conv q f t l = none := by
  intro l
  induction l with
  | nil => intro _; rfl
  | cons h rest ih =>
    intro hall
    rw [chainWith_cons, if_neg]
    · exact ih fun x hx => hall x (List.mem_cons_of_mem _ hx)
    · simp [hall h (List.mem_cons_self _ _)]

theorem convertAux_id (n : Nat) (q : ℚ) (fu tu : String)
    (h : normalizeUnit fu = normalizeUnit tu) :
    convertAux (n + 1) q fu tu = some q := by
  unfold convertAux
  rw [if_pos h]

theorem convertAux_direct (n : Nat) (q : ℚ) (fu tu : String) (c : ℚ)
    (hne : normalizeUnit fu ≠ normalizeUnit tu)
    (h : factor (normalizeUnit fu) (normalizeUnit tu) = some c) :
    convertAux (n + 1) q fu tu = some (q * c) := by
  unfold convertAux
  rw [if_neg hne, h]

theorem convertAux_reverse (n : Nat) (q : ℚ) (fu tu : String) (c : ℚ)
    (hne : normalizeUnit fu ≠ normalizeUnit tu)
    (h1 : factor (normalizeUnit fu) (normalizeUnit tu) = none)
    (h2 : factor (normalizeUnit tu) (normalizeUnit fu) = some c) :
    convertAux (n + 1) q fu tu = some (q / c) := by
  unfold convertAux
  rw [if_neg hne, h1, h2]

theorem convertAux_chain (n : Nat) (q : ℚ) (fu tu : String)
    (hne : normalizeUnit fu ≠ normalizeUnit tu)
    (h1 : factor (normalizeUnit fu) (normalizeUnit tu) = none)
    (h2 : factor (normalizeUnit tu) (normalizeUnit fu) = none) :
    convertAux (n + 1) q fu tu =
      chainWith (convertAux n) q (normalizeUnit fu) (normalizeUnit tu) intermediates := by
  unfold convertAux
  rw [if_neg hne, h1, h2]

theorem chainWith_pos (n : Nat)
    (hconv : ∀ (q : ℚ) (fu tu : String) (r : ℚ),
      0 < q → convertAux n q fu tu = some r → 0 < r) :
    ∀ (l : List String) (q : ℚ) (f t : String) (r : ℚ),
      0 < q → chainWith (convertAux n) q f t l = some r → 0 < r := by
  intro l
  induction l with
  | nil => intro q f t r _ h; simp [chainWith] at h
  | cons hub rest ih =>
    intro q f t r hq h
    rw [chainWith_cons] at h
    by_cases hg :
        ((hasEdge f hub || hasEdge hub f) && (hasEdge hub t || hasEdge t hub)) = true
    · rw [if_pos hg] at h
      cases h1 : convertAux n q f hub with
      | none => simp only [h1] at h; exact ih q f t r hq h
      | some temp =>
        simp only [h1] at h
        cases h2 : convertAux n temp hub t with
        | none => simp only [h2] at h; exact ih q f t r hq h
        | some r' =>
          simp only [h2] at h
          obtain rfl : r' = r := by simpa using h
          exact hconv temp hub t _ (hconv q f hub temp hq h1) h2
    · rw [if_neg hg] at h
      exact ih q f t r hq h

theorem convertAux_pos :
    ∀ (n : Nat) (q : ℚ) (fu tu : String) (r : ℚ),
      0 < q → convertAux n q fu tu = some r → 0 < r := by
  intro n
  induction n with
  | zero => intro q fu tu r _ h; simp [convertAux] at h
  | succ n ih =>
    intro q fu tu r hq h
    by_cases hid : normalizeUnit fu = normalizeUnit tu
    · rw [convertAux_id n q fu tu hid] at h
      obtain rfl : q = r := by simpa using h
      exact hq
    · cases hft : factor (normalizeUnit fu) (normalizeUnit tu) with
      | some c =>
        rw [convertAux_direct n q fu tu c hid hft] at h
        obtain rfl : q * c = r := by simpa using h
        exact mul_pos hq (factor_pos hft)
      | none =>
        cases htf : factor (normalizeUnit tu) (normalizeUnit fu) with
        | some c =>
          rw [convertAux_reverse n q fu tu c hid hft htf] at h
          obtain rfl : q / c = r := by simpa using h
          exact div_pos hq (factor_pos htf)
        | none =>
          rw [convertAux_chain n q fu tu hid hft htf] at h
          exact chainWith_pos n ih intermediates q _ _ r hq h

theorem roundHalfEven_intCast (m : ℤ) : roundHalfEven (m : ℚ) = m := by
  unfold roundHalfEven
  rw [Int.floor_intCast]
  norm_num

theorem roundHalfEven_add_half (m : ℤ) :
    roundHalfEven ((m : ℚ) + 1/2) = if m % 2 = 0 then m else m + 1 := by
  have hf : ⌊(m : ℚ) + 1/2⌋ = m := by
    rw [add_comm, Int.floor_add_int]
    norm_num
  unfold roundHalfEven
  rw [hf]
  have hr : (m : ℚ) + 1/2 - (m : ℤ) = 1/2 := by ring
  rw [hr]
  norm_num

theorem round2_eq_intCast_div (q : ℚ) (m : ℤ) (h : q * 100 = (m : ℚ)) :
    round2 q = (m : ℚ) / 100 := by
  unfold round2
  rw [h, roundHalfEven_intCast]

theorem round2_tie (q : ℚ) (m : ℤ) (h : q * 100 = (m : ℚ) + 1/2) :
    round2 q = (if m % 2 = 0 then (m : ℚ) else (m : ℚ) + 1) / 100 := by
  unfold round2
  rw [h, roundHalfEven_add_half]
  by_cases hm : m % 2 = 0 <;> simp [hm]

theorem floor_le_roundHalfEven (q : ℚ) : ⌊q⌋ ≤ roundHalfEven q := by
  unfold roundHalfEven
  by_cases h1 : q - ⌊q⌋ < 1/2
  · rw [if_pos h1]
  · rw [if_neg h1]
    by_cases h2 : 1/2 < q - ⌊q⌋
    · rw [if_pos h2]; omega
    · rw [if_neg h2]
      by_cases h3 : ⌊q⌋ % 2 = 0
      · rw [if_pos h3]
      · rw [if_neg h3]; omega

theorem cent_le_round2 (q : ℚ) (h : 1/100 ≤ q) : 1/100 ≤ round2 q := by
  unfold round2
  have h1 : (1 : ℤ) ≤ ⌊q * 100⌋ := Int.le_floor.mpr (by push_cast; linarith)
  have h2 : (1 : ℤ) ≤ roundHalfEven (q * 100) :=
    le_trans h1 (floor_le_roundHalfEven _)
  have h3 : (1 : ℚ) ≤ (roundHalfEven (q * 100) : ℚ) := by exact_mod_cast h2
  linarith

theorem recipeLineCost_skip (l : CostLine) (h : l.unit = l.recipe_unit) :
    recipeLineCost l =
      if 0 < l.cost_per_recipe_unit * l.quantity ∧
          l.cost_per_recipe_unit * l.quantity < 1/100 then 1/100
      else round2 (l.cost_per_recipe_unit * l.quantity) := by
  unfold recipeLineCost
  rw [if_neg (fun hne => hne h)]

theorem recipeLineCost_conv (l : CostLine) (r : ℚ) (h : l.unit ≠ l.recipe_unit)
    (hc : convert l.quantity l.unit l.recipe_unit = Except.ok r) :
    recipeLineCost l =
      if 0 < l.cost_per_recipe_unit * r ∧ l.cost_per_recipe_unit * r < 1/100 then 1/100
      else round2 (l.cost_per_recipe_unit * r) := by
  unfold recipeLineCost
  rw [if_pos h, hc]

theorem recipeLineCost_fallback (l : CostLine) (e : ConvError) (h : l.unit ≠ l.recipe_unit)
    (hc : convert l.quantity l.unit l.recipe_unit = Except.error e) :
    recipeLineCost l =
      if l.cost_per_recipe_unit * l.quantity < 1/100 then 1/100
      else round2 (l.cost_per_recipe_unit * l.quantity) := by
  unfold recipeLineCost
  rw [if_pos h, hc]

theorem plateLineCost_skip (l : CostLine) (h : l.unit = l.recipe_unit) :
    plateLineCost l =
      if 0 < l.quantity * l.cost_per_recipe_unit ∧
          l.quantity * l.cost_per_recipe_unit < 1/100 then 1/100
      else round2 (l.quantity * l.cost_per_recipe_unit) := by
  unfold plateLineCost
  rw [if_neg (fun hne => hne h)]

theorem plateLineCost_conv (l : CostLine) (r : ℚ) (h : l.unit ≠ l.recipe_unit)
    (hc : convert l.quantity l.unit l.recipe_unit = Except.ok r) :
    plateLineCost l =
      if 0 < r * l.cost_per_recipe_unit ∧ r * l.cost_per_recipe_unit < 1/100 then 1/100
      else round2 (r * l.cost_per_recipe_unit) := by
  unfold plateLineCost
  rw [if_pos h, hc]

theorem plateLineCost_fallback (l : CostLine) (e : ConvError) (h : l.unit ≠ l.recipe_unit)
    (hc : convert l.quantity l.unit l.recipe_unit = Except.error e) :
    plateLineCost l = 0 := by
  unfold plateLineCost
  rw [if_pos h, hc]

theorem fdiv_eq_ceil (t b : ℤ) (hb : 0 < b) :
    Int.fdiv (t + b - 1) b = ⌈(t : ℚ) / (b : ℚ)⌉ := by
  rw [Int.fdiv_eq_ediv _ (le_of_lt hb)]
  symm
  rw [Int.ceil_eq_iff]
  have hdm := Int.ediv_add_emod (t + b - 1) b
  have hr0 : 0 ≤ (t + b - 1) % b := Int.emod_nonneg _ (ne_of_gt hb)
  have hrb : (t + b - 1) % b < b := Int.emod_lt_of_pos _ hb
  have hbq : (0 : ℚ) < (b : ℚ) := by exact_mod_cast hb
  constructor
  · rw [lt_div_iff₀ hbq]
    have : (((t + b - 1) / b - 1) * b : ℤ) < t := by nlinarith [hdm, hr0, hrb]
    calc ((((t + b - 1) / b : ℤ) : ℚ) - 1) * (b : ℚ)
        = ((((t + b - 1) / b - 1) * b : ℤ) : ℚ) := by push_cast; ring
      _ < (t : ℚ) := by exact_mod_cast this
  · rw [div_le_iff₀ hbq]
    have : t ≤ (((t + b - 1) / b) * b : ℤ) := by nlinarith [hdm, hr0, hrb]
    calc (t : ℚ) ≤ ((((t + b - 1) / b) * b : ℤ) : ℚ) := by exact_mod_cast this
      _ = (((t + b - 1) / b : ℤ) : ℚ) * (b : ℚ) := by push_cast; ring

theorem convert_of_aux {q : ℚ} {fu tu : String} {r : ℚ}
    (h : convertAux 9 q fu tu = some r) : convert q fu tu = Except.ok r := by
  unfold convert
  rw [h]

theorem convert_ok_aux {q : ℚ} {fu tu : String} {r : ℚ}
    (h : convert q fu tu = Except.ok r) : convertAux 9 q fu tu = some r := by
  unfold convert at h
  cases hc : convertAux 9 q fu tu with
  | some x => rw [hc] at h; simpa using h
  | none => rw [hc] at h; simp at h

theorem chainWith_first_success (n : Nat) (q : ℚ) (f t : String) :
    ∀ (pre : List String) (hub : String) (post : List String) (r : ℚ),
      (∀ h ∈ pre, chainStep n q f t h = none) →
      chainStep n q f t hub = some r →
      chainWith (convertAux n) q f t (pre ++ hub :: post) = some r := by
  intro pre
  induction pre with
  | nil =>
    intro hub post r _ hhub
    rw [List.nil_append, chainWith_eq_step, hhub]
  | cons h0 rest ih =>
    intro hub post r hpre hhub
    rw [List.cons_append, chainWith_eq_step, hpre h0 (List.mem_cons_self _ _)]
    exact ih hub post r (fun x hx => hpre x (List.mem_cons_of_mem _ hx)) hhub

theorem calculate_recipe_cost_zero (pf : Option ℚ) (rows : List CostLine) :
    calculate_recipe_cost 0 pf rows = Except.error CostError.zeroDivision := by
  unfold calculate_recipe_cost
  rw [if_pos rfl]

theorem calculate_recipe_cost_ok (s : ℚ) (pf : Option ℚ) (rows : List CostLine)
    (hs : s ≠ 0) :
    calculate_recipe_cost s pf rows = Except.ok
      { servings := s
        ingredient_cost := round2 ((rows.map recipeLineCost).sum)
        prep_factor := pf.getD (10/100)
        prep_factor_cost := round2 ((rows.map recipeLineCost).sum * pf.getD (10/100))
        total_cost := round2 ((rows.map recipeLineCost).sum +
          (rows.map recipeLineCost).sum * pf.getD (10/100))
        cost_per_serving := round2 (((rows.map recipeLineCost).sum +
          (rows.map recipeLineCost).sum * pf.getD (10/100)) / s)
        ingredient_breakdown :=
          rows.map (fun l => ⟨l.name, l.quantity, l.unit, recipeLineCost l⟩) } := by
  unfold calculate_recipe_cost
  rw [if_neg hs]

theorem recipeContribs_nil : recipeContribs [] = Except.ok [] := rfl

theorem recipeContribs_cons (row : PlateRecipeRow) (rest : List PlateRecipeRow)
    (c : ℚ) (cs : List ℚ)
    (h1 : recipeContribution row = Except.ok c)
    (h2 : recipeContribs rest = Except.ok cs) :
    recipeContribs (row :: rest) = Except.ok (c :: cs) := by
  unfold recipeContribs
  rw [h1, h2]
  rfl

theorem recipeContribution_ok (row : PlateRecipeRow) (cd : RecipeCostResult)
    (h : calculate_recipe_cost row.recipe.servings row.recipe.prep_factor? row.recipe.rows =
      Except.ok cd) :
    recipeContribution row = Except.ok (cd.cost_per_serving * quantityConsumed row) := by
  unfold recipeContribution
  rw [h]
  rfl

theorem plate_detail_ok (qf : Option ℚ) (prs : List PlateRecipeRow)
    (rows : List CostLine) (contribs : List ℚ)
    (h : recipeContribs prs = Except.ok contribs) :
    plate_detail qf prs rows = Except.ok
      { recipe_cost := contribs.sum
        ingredient_cost := (calculate_plate_cost rows).ingredient_cost
        subtotal := contribs.sum + (calculate_plate_cost rows).ingredient_cost
        q_factor := qf.getD (4/100)
        q_factor_cost :=
          (contribs.sum + (calculate_plate_cost rows).ingredient_cost) * qf.getD (4/100)
        total_cost :=
          (contribs.sum + (calculate_plate_cost rows).ingredient_cost) +
          (contribs.sum + (calculate_plate_cost rows).ingredient_cost) * qf.getD (4/100) } := by
  unfold plate_detail
  rw [h]
  rfl

/-! The claims. -/

/-- C6: for every quantity `q` and all unit spellings `u`, `v` that
alias-normalize to the same canonical unit -- in particular `v = u`
itself, even for a unit with no registered edges -- `convert q u v`
returns exactly `q` via the identity short-circuit. -/
theorem C6_convert_identity (q : ℚ) (u v : String)
    (h : normalizeUnit u = normalizeUnit v) : convert q u v = Except.ok q := by
  apply convert_of_aux
  rw [show (9 : Nat) = 8 + 1 from rfl]
  exact convertAux_id 8 q u v h

/-- Witness for C6 at `q = 5` and the alias pair `"tbsp"`, `"T"`
(distinct spellings normalizing to the same canonical unit). -/
theorem C6_convert_identity_witness :
    normalizeUnit "tbsp" = normalizeUnit "T" ∧ convert 5 "tbsp" "T" = Except.ok 5 :=
  ⟨by decide, C6_convert_identity 5 "tbsp" "T" (by decide)⟩

/-- C10: every registered conversion factor is strictly positive (so
the reverse-edge division never divides by zero), and at every
recursion depth a conversion that succeeds maps a strictly positive
quantity to a strictly positive result -- in particular `convert`
itself does. -/
theorem C10_positivity :
    (∀ p ∈ conversion_factors, (0 : ℚ) < p.2) ∧
    (∀ (n : Nat) (q : ℚ) (fu tu : String) (r : ℚ),
      0 < q → convertAux n q fu tu = some r → 0 < r) ∧
    (∀ (q : ℚ) (fu tu : String) (r : ℚ),
      0 < q → convert q fu tu = Except.ok r → 0 < r) :=
  ⟨conversion_factors_pos, convertAux_pos,
   fun q fu tu r hq h => convertAux_pos 9 q fu tu r hq (convert_ok_aux h)⟩

/-- Witness for C10 at the successful conversion of `2` cups to
ounces (`convert 2 "C" "oz." = 16 > 0`). -/
theorem C10_positivity_witness : (0 : ℚ) < 2 ∧ (0 : ℚ) < 2 * 8 :=
  ⟨by norm_num, C10_positivity.2.2 2 "C" "oz." (2 * 8) (by norm_num) rfl⟩

/-- C8: when, after alias normalization, a unit pair is distinct and
has no direct edge, no reverse edge, and no hub in the fixed
intermediate list passes the chain loop's two-leg key test, `convert`
fails with the no-conversion-path error naming the two (normalized)
units.  The concrete pair of the claim, `"ea-tomato"` to `"bunch"`,
is the witness below. -/
theorem C8_no_conversion_path (q : ℚ) (fu tu : String)
    (hne : normalizeUnit fu ≠ normalizeUnit tu)
    (h1 : factor (normalizeUnit fu) (normalizeUnit tu) = none)
    (h2 : factor (normalizeUnit tu) (normalizeUnit fu) = none)
    (hhubs : ∀ h ∈ intermediates,
      ((hasEdge (normalizeUnit fu) h || hasEdge h (normalizeUnit fu)) &&
       (hasEdge h (normalizeUnit tu) || hasEdge (normalizeUnit tu) h)) = false) :
    convert q fu tu =
      Except.error (ConvError.noConversion (normalizeUnit fu) (normalizeUnit tu)) := by
  unfold convert
  rw [show (9 : Nat) = 8 + 1 from rfl, convertAux_chain 8 q fu tu hne h1 h2,
    chainWith_none _ q _ _ intermediates hhubs]

/-- Witness for C8: `convert 1 "ea-tomato" "bunch"` fails with the
no-path error naming both units. -/
theorem C8_no_conversion_path_witness :
    convert 1 "ea-tomato" "bunch" =
      Except.error (ConvError.noConversion "ea-tomato" "bunch") :=
  (C8_no_conversion_path 1 "ea-tomato" "bunch" (by decide) (by decide) (by decide)
    (by decide)).trans (by decide)

/-- C5 counterexample: for the pair `("ea-tomato", "ea-lemon")` there
is no direct and no reverse edge, no hub before `"oz"` has a
resolvable leg, and at the hub `"oz"` BOTH legs are direct registered
edges (`("ea-tomato", "oz")` and `("oz", "ea-lemon")`); the claim
therefore requires the composition `1 * 5.0 * 0.2857` to be returned,
but `convert` raises the no-path error instead: the recursive leg
calls normalize the hub `"oz"` to `"oz."`, whose edges differ. -/
theorem C5_counterexample :
    factor "ea-tomato" "ea-lemon" = none ∧
    factor "ea-lemon" "ea-tomato" = none ∧
    ((hasEdge "ea-tomato" "t" || hasEdge "t" "ea-tomato") &&
      (hasEdge "t" "ea-lemon" || hasEdge "ea-lemon" "t")) = false ∧
    ((hasEdge "ea-tomato" "T" || hasEdge "T" "ea-tomato") &&
      (hasEdge "T" "ea-lemon" || hasEdge "ea-lemon" "T")) = false ∧
    ((hasEdge "ea-tomato" "C" || hasEdge "C" "ea-tomato") &&
      (hasEdge "C" "ea-lemon" || hasEdge "ea-lemon" "C")) = false ∧
    ((hasEdge "ea-tomato" "oz." || hasEdge "oz." "ea-tomato") &&
      (hasEdge "oz." "ea-lemon" || hasEdge "ea-lemon" "oz.")) = false ∧
    factor "ea-tomato" "oz" = some (50/10) ∧
    factor "oz" "ea-lemon" = some (2857/10000) ∧
    convert 1 "ea-tomato" "ea-lemon" =
      Except.error (ConvError.noConversion "ea-tomato" "ea-lemon") :=
  ⟨rfl, rfl, by decide, by decide, by decide, by decide, rfl, rfl, by decide⟩

/-- C5 amended: with no direct and no reverse edge between the
normalized units, the chain loop tries the hubs in order and the
first hub whose step succeeds wins, where a hub's step passes the
raw-name two-leg key test and then resolves both legs with the hub
name re-normalized through the alias table (so the hubs `"oz"` and
`"gal"`, which normalize to `"oz."` and `"Gal."`, can pass the key
test yet fail to resolve, and are then skipped); and a leg between
already-normalized distinct names with a direct or reverse edge is
resolved by steps 1-4 alone, without re-entering chaining. -/
theorem C5_first_hub_amended :
    (∀ (q : ℚ) (fu tu : String) (pre : List String) (hub : String)
        (post : List String) (r : ℚ),
      normalizeUnit fu ≠ normalizeUnit tu →
      factor (normalizeUnit fu) (normalizeUnit tu) = none →
      factor (normalizeUnit tu) (normalizeUnit fu) = none →
      intermediates = pre ++ hub :: post →
      (∀ h ∈ pre, chainStep 8 q (normalizeUnit fu) (normalizeUnit tu) h = none) →
      chainStep 8 q (normalizeUnit fu) (normalizeUnit tu) hub = some r →
      convert q fu tu = Except.ok r) ∧
    (∀ (n : Nat) (q : ℚ) (f h : String),
      normalizeUnit f = f → normalizeUnit h = h → f ≠ h →
      ((factor f h).isSome ∨ (factor h f).isSome) →
      convertAux (n + 1) q f h =
        match factor f h with
        | some c => some (q * c)
        | none => Option.map (fun c => q / c) (factor h f)) := by
  constructor
  · intro q fu tu pre hub post r hne h1 h2 hsplit hpre hhub
    apply convert_of_aux
    rw [show (9 : Nat) = 8 + 1 from rfl, convertAux_chain 8 q fu tu hne h1 h2, hsplit]
    exact chainWith_first_success 8 q _ _ pre hub post r hpre hhub
  · intro n q f h hf hh hne hedge
    have hne' : normalizeUnit f ≠ normalizeUnit h := by rw [hf, hh]; exact hne
    cases hfh : factor f h with
    | some c =>
      rw [convertAux_direct n q f h c hne' (by rw [hf, hh]; exact hfh)]
    | none =>
      cases hhf : factor h f with
      | some c =>
        rw [convertAux_reverse n q f h c hne' (by rw [hf, hh]; exact hfh)
          (by rw [hf, hh]; exact hhf)]
        rfl
      | none =>
        rw [hfh, hhf] at hedge
        simp at hedge

/-- Witness for the amended C5: `"pinch"` to `"oz."` has no direct or
reverse edge; the first hub `"t"` resolves both legs (direct edges
`("pinch", "t")` and `("t", "oz.")`), and `convert` returns the
two-hop composition `1 * 0.0625 * 0.166667`. -/
theorem C5_first_hub_amended_witness :
    convert 1 "pinch" "oz." = Except.ok (104166875/10000000000) :=
  (C5_first_hub_amended.1 1 "pinch" "oz." []
    "t" ["T", "C", "oz.", "oz", "lb", "Gal.", "gal", "ea"]
    (1 * (625/10000) * (166667/1000000))
    (by decide) rfl rfl rfl (by simp) rfl).trans
    (by rw [Except.ok.injEq]; norm_num)

/-- C1 counterexample: a plate line whose unit `"bunch"` cannot
convert to its ingredient's recipe unit `"ea-tomato"` is priced at
`0.0` by `calculate_plate_cost` -- not at the strictly positive
fallback `quantity * cost_per_recipe_unit = 2 * 3` the claim
asserts for both cost functions. -/
theorem C1_counterexample :
    convert 2 "bunch" "ea-tomato" =
      Except.error (ConvError.noConversion "bunch" "ea-tomato") ∧
    plateLineCost ⟨"tomato", 2, "bunch", 3, "ea-tomato"⟩ = 0 ∧
    (calculate_plate_cost [⟨"tomato", 2, "bunch", 3, "ea-tomato"⟩]).ingredient_breakdown =
      [⟨"tomato", 2, "bunch", 0⟩] := by
  have h2 : plateLineCost ⟨"tomato", 2, "bunch", 3, "ea-tomato"⟩ = 0 :=
    plateLineCost_fallback _ (ConvError.noConversion "bunch" "ea-tomato")
      (by decide) (by decide)
  refine ⟨by decide, h2, ?_⟩
  show List.map _ _ = _
  rw [List.map_cons, List.map_nil]
  simp only [h2]

/-- C1 amended: on a conversion failure `calculate_recipe_cost`
prices the line by the fallback `cost_per_recipe_unit * quantity`
with an unconditional `$0.01` floor (hence at least `$0.01`, never
zero), while `calculate_plate_cost` prices the same line at `0.0`;
neither function propagates the conversion error (both per-line
pricing functions are total). -/
theorem C1_fallback_amended (l : CostLine) (e : ConvError)
    (hne : l.unit ≠ l.recipe_unit)
    (hc : convert l.quantity l.unit l.recipe_unit = Except.error e) :
    recipeLineCost l =
      (if l.cost_per_recipe_unit * l.quantity < 1/100 then 1/100
       else round2 (l.cost_per_recipe_unit * l.quantity)) ∧
    1/100 ≤ recipeLineCost l ∧
    plateLineCost l = 0 := by
  refine ⟨recipeLineCost_fallback l e hne hc, ?_, plateLineCost_fallback l e hne hc⟩
  rw [recipeLineCost_fallback l e hne hc]
  by_cases hlt : l.cost_per_recipe_unit * l.quantity < 1/100
  · rw [if_pos hlt]
  · rw [if_neg hlt]
    exact cent_le_round2 _ (le_of_not_lt hlt)

/-- Witness for the amended C1 at a line of `2` `"bunch"` of an
ingredient priced per `"ea-tomato"`: the recipe path charges at
least one cent while the plate path records zero. -/
theorem C1_fallback_amended_witness :
    1/100 ≤ recipeLineCost ⟨"herb", 2, "bunch", 3, "ea-tomato"⟩ ∧
    plateLineCost ⟨"herb", 2, "bunch", 3, "ea-tomato"⟩ = 0 := by
  have h := C1_fallback_amended ⟨"herb", 2, "bunch", 3, "ea-tomato"⟩
    (ConvError.noConversion "bunch" "ea-tomato") (by decide) (by decide)
  exact ⟨h.2.1, h.2.2⟩

/-- C3 counterexample: a line with raw cost `0.125` (quantity `0.5`
at `0.25` per unit, unit already canonical) is priced `0.12` by the
code (Python `round` is half-to-even), while the claimed standard
half-up rounding gives `0.13`; the raw cost is outside the sub-cent
clamp range, so the clamp clause does not apply. -/
theorem C3_counterexample :
    recipeLineCost ⟨"spice", 5/10, "oz.", 25/100, "oz."⟩ = 12/100 ∧
    roundHalfUp2 ((25/100 : ℚ) * (5/10)) = 13/100 ∧
    recipeLineCost ⟨"spice", 5/10, "oz.", 25/100, "oz."⟩ ≠
      roundHalfUp2 ((25/100 : ℚ) * (5/10)) ∧
    ¬ (0 < (25/100 : ℚ) * (5/10) ∧ (25/100 : ℚ) * (5/10) < 1/100) := by
  have h1 : recipeLineCost ⟨"spice", 5/10, "oz.", 25/100, "oz."⟩ = 12/100 := by
    rw [recipeLineCost_skip _ rfl, if_neg (by norm_num),
      round2_tie ((25/100 : ℚ) * (5/10)) 12 (by norm_num)]
    norm_num
  have h2 : roundHalfUp2 ((25/100 : ℚ) * (5/10)) = 13/100 := by
    unfold roundHalfUp2
    rw [show ((25/100 : ℚ) * (5/10)) * 100 + 1/2 = ((13 : ℤ) : ℚ) by norm_num,
      Int.floor_intCast]
    norm_num
  exact ⟨h1, h2, by rw [h1, h2]; norm_num, by norm_num⟩

/-- C3 amended: for every line whose quantity resolves (unit equal to
the canonical unit, or conversion successful), both cost functions
clamp a raw cost strictly between `0` and `0.01` to exactly `0.01`,
and otherwise round to 2 decimals with round-half-to-even (banker's)
rounding -- Python's `round`, not half-up. -/
theorem C3_clamp_amended (l : CostLine) (cq : ℚ)
    (hc : (if l.unit ≠ l.recipe_unit then convert l.quantity l.unit l.recipe_unit
           else Except.ok l.quantity) = Except.ok cq) :
    recipeLineCost l =
      (if 0 < l.cost_per_recipe_unit * cq ∧ l.cost_per_recipe_unit * cq < 1/100 then 1/100
       else round2 (l.cost_per_recipe_unit * cq)) ∧
    plateLineCost l =
      (if 0 < cq * l.cost_per_recipe_unit ∧ cq * l.cost_per_recipe_unit < 1/100 then 1/100
       else round2 (cq * l.cost_per_recipe_unit)) := by
  constructor
  · unfold recipeLineCost
    rw [hc]
  · unfold plateLineCost
    rw [hc]

/-- Witness for the amended C3: `2` cups of an ingredient priced
`$0.50` per ounce converts to `16` ounces and is priced `$8.00` by
both cost functions. -/
theorem C3_clamp_amended_witness :
    recipeLineCost ⟨"milk", 2, "C", 5/10, "oz."⟩ = 8 ∧
    plateLineCost ⟨"milk", 2, "C", 5/10, "oz."⟩ = 8 := by
  have h := C3_clamp_amended ⟨"milk", 2, "C", 5/10, "oz."⟩ (2 * 8) rfl
  constructor
  · rw [h.1, if_neg (by norm_num), round2_eq_intCast_div _ 800 (by norm_num)]
    norm_num
  · rw [h.2, if_neg (by norm_num), round2_eq_intCast_div _ 800 (by norm_num)]
    norm_num

/-- C9: in `calculate_recipe_cost`, the conversion-failure fallback
branch applies the `$0.01` minimum whenever the raw fallback cost is
below `0.01`, with no positivity requirement (a zero or negative raw
cost is charged exactly `$0.01`), whereas the successful-resolution
branch clamps only strictly positive sub-cent costs, so a zero raw
cost there stays `$0.00`. -/
theorem C9_fallback_floor :
    (∀ (l : CostLine) (e : ConvError), l.unit ≠ l.recipe_unit →
      convert l.quantity l.unit l.recipe_unit = Except.error e →
      l.cost_per_recipe_unit * l.quantity < 1/100 →
      recipeLineCost l = 1/100) ∧
    (∀ l : CostLine, l.unit = l.recipe_unit →
      l.cost_per_recipe_unit * l.quantity = 0 →
      recipeLineCost l = 0) := by
  constructor
  · intro l e hne hc hlt
    rw [recipeLineCost_fallback l e hne hc, if_pos hlt]
  · intro l heq hz
    rw [recipeLineCost_skip l heq, hz, if_neg (by norm_num),
      round2_eq_intCast_div 0 0 (by norm_num)]
    norm_num

/-- Witness for C9: a zero-quantity line priced via the fallback
(`"bunch"` to `"ea-tomato"` has no path) costs `$0.01`, while the
same zero raw cost in the successful path costs `$0.00`. -/
theorem C9_fallback_floor_witness :
    recipeLineCost ⟨"w1", 0, "bunch", 5, "ea-tomato"⟩ = 1/100 ∧
    recipeLineCost ⟨"w2", 0, "oz.", 5, "oz."⟩ = 0 :=
  ⟨C9_fallback_floor.1 ⟨"w1", 0, "bunch", 5, "ea-tomato"⟩
      (ConvError.noConversion "bunch" "ea-tomato") (by decide) (by decide) (by norm_num),
   C9_fallback_floor.2 ⟨"w2", 0, "oz.", 5, "oz."⟩ rfl (by norm_num)⟩

/-- C4 counterexample: pricing with `servings = -1` does NOT fail --
`calculate_recipe_cost` returns a result (with a negative cost per
serving); no `InvalidServings` check exists in the source. -/
theorem C4_counterexample :
    calculate_recipe_cost (-1) none [⟨"flour", 1, "oz.", 2, "oz."⟩] =
      Except.ok { servings := -1
                  ingredient_cost := 2
                  prep_factor := 10/100
                  prep_factor_cost := 2/10
                  total_cost := 22/10
                  cost_per_serving := -(22/10)
                  ingredient_breakdown := [⟨"flour", 1, "oz.", 2⟩] } := by
  have hline : recipeLineCost ⟨"flour", 1, "oz.", 2, "oz."⟩ = 2 := by
    rw [recipeLineCost_skip _ rfl, if_neg (by norm_num),
      round2_eq_intCast_div _ 200 (by norm_num)]
    norm_num
  rw [calculate_recipe_cost_ok (-1) none _ (by norm_num)]
  simp only [List.map_cons, List.map_nil, List.sum_cons, List.sum_nil, hline,
    Option.getD_none, add_zero]
  rw [Except.ok.injEq, RecipeCostResult.mk.injEq]
  refine ⟨rfl, ?_, rfl, ?_, ?_, ?_, rfl⟩
  · rw [round2_eq_intCast_div _ 200 (by norm_num)]; norm_num
  · rw [round2_eq_intCast_div _ 20 (by norm_num)]; norm_num
  · rw [round2_eq_intCast_div _ 220 (by norm_num)]; norm_num
  · rw [round2_eq_intCast_div _ (-220) (by norm_num)]; norm_num

/-- C4 amended: `calculate_recipe_cost` performs no servings
validation: `servings = 0` fails only with the division-by-zero
error (not a typed `InvalidServings`), and any nonzero servings --
negative included -- succeeds with `prepCost = ingredientCost *
prepFactor` (default `0.10` when unset), `totalCost = ingredientCost
+ prepCost`, `costPerServing = totalCost / servings` (each rounded
to cents in the returned breakdown). -/
theorem C4_no_validation_amended :
    (∀ (pf : Option ℚ) (rows : List CostLine),
      calculate_recipe_cost 0 pf rows = Except.error CostError.zeroDivision) ∧
    (∀ (s : ℚ) (pf : Option ℚ) (rows : List CostLine), s ≠ 0 →
      calculate_recipe_cost s pf rows = Except.ok
        { servings := s
          ingredient_cost := round2 ((rows.map recipeLineCost).sum)
          prep_factor := pf.getD (10/100)
          prep_factor_cost := round2 ((rows.map recipeLineCost).sum * pf.getD (10/100))
          total_cost := round2 ((rows.map recipeLineCost).sum +
            (rows.map recipeLineCost).sum * pf.getD (10/100))
          cost_per_serving := round2 (((rows.map recipeLineCost).sum +
            (rows.map recipeLineCost).sum * pf.getD (10/100)) / s)
          ingredient_breakdown :=
            rows.map (fun l => ⟨l.name, l.quantity, l.unit, recipeLineCost l⟩) }) :=
  ⟨calculate_recipe_cost_zero, calculate_recipe_cost_ok⟩

/-- Witness for the amended C4, the spec's end-to-end example: one
line of `2` cups at `$0.50/oz` and `servings = 4` gives ingredient
cost `$8.00`, prep cost `$0.80`, total `$8.80`, `$2.20` per
serving. -/
theorem C4_no_validation_amended_witness :
    calculate_recipe_cost 4 none [⟨"cheese", 2, "C", 5/10, "oz."⟩] =
      Except.ok { servings := 4
                  ingredient_cost := 8
                  prep_factor := 10/100
                  prep_factor_cost := 8/10
                  total_cost := 88/10
                  cost_per_serving := 22/10
                  ingredient_breakdown := [⟨"cheese", 2, "C", 8⟩] } := by
  have hline : recipeLineCost ⟨"cheese", 2, "C", 5/10, "oz."⟩ = 8 := by
    rw [recipeLineCost_conv ⟨"cheese", 2, "C", 5/10, "oz."⟩ (2 * 8) (by decide) rfl,
      if_neg (by norm_num), round2_eq_intCast_div _ 800 (by norm_num)]
    norm_num
  rw [C4_no_validation_amended.2 4 none _ (by norm_num)]
  simp only [List.map_cons, List.map_nil, List.sum_cons, List.sum_nil, hline,
    Option.getD_none, add_zero]
  rw [Except.ok.injEq, RecipeCostResult.mk.injEq]
  refine ⟨rfl, ?_, rfl, ?_, ?_, ?_, rfl⟩
  · rw [round2_eq_intCast_div _ 800 (by norm_num)]; norm_num
  · rw [round2_eq_intCast_div _ 80 (by norm_num)]; norm_num
  · rw [round2_eq_intCast_div _ 880 (by norm_num)]; norm_num
  · rw [round2_eq_intCast_div _ 220 (by norm_num)]; norm_num

/-- C2: when every sub-recipe of a plate costs successfully, the
plate-detail cost is `subtotal = Σ contributions +
directIngredientCost`, `qFactorCost = subtotal * qFactor`, `total =
subtotal + qFactorCost`; each sub-recipe contributes exactly
`cost_per_serving * quantityConsumed` (explicit quantity override
when present, else the stored serving count), exactly once; and the
direct-ingredient cost sums only the plate's own ingredient rows
(`calculate_plate_cost` prices `plate_ingredients` rows only, never
a sub-recipe's lines). -/
theorem C2_plate_aggregation :
    (∀ (qf : Option ℚ) (prs : List PlateRecipeRow) (rows : List CostLine)
        (contribs : List ℚ),
      recipeContribs prs = Except.ok contribs →
      plate_detail qf prs rows = Except.ok
        { recipe_cost := contribs.sum
          ingredient_cost := (calculate_plate_cost rows).ingredient_cost
          subtotal := contribs.sum + (calculate_plate_cost rows).ingredient_cost
          q_factor := qf.getD (4/100)
          q_factor_cost :=
            (contribs.sum + (calculate_plate_cost rows).ingredient_cost) * qf.getD (4/100)
          total_cost :=
            (contribs.sum + (calculate_plate_cost rows).ingredient_cost) +
            (contribs.sum + (calculate_plate_cost rows).ingredient_cost) *
              qf.getD (4/100) }) ∧
    (∀ (row : PlateRecipeRow) (cd : RecipeCostResult),
      calculate_recipe_cost row.recipe.servings row.recipe.prep_factor? row.recipe.rows =
        Except.ok cd →
      recipeContribution row = Except.ok (cd.cost_per_serving * quantityConsumed row)) ∧
    (∀ rows : List CostLine,
      (calculate_plate_cost rows).ingredient_cost =
        round2 ((rows.map plateLineCost).sum)) :=
  ⟨plate_detail_ok, recipeContribution_ok, fun _ => rfl⟩

/-- Witness for C2: a plate with one sub-recipe (cost `$0.55` per
serving, consumed `3` servings, no quantity override) and one direct
line costing `$1.00`, with the default Q-factor `0.04`: subtotal
`$2.65`, Q-factor cost `$0.106`, total `$2.756`. -/
theorem C2_plate_aggregation_witness :
    plate_detail none
      [⟨⟨"sauce", 2, none, [⟨"basil", 1, "oz.", 1, "oz."⟩]⟩, 3, none, none⟩]
      [⟨"bread", 2, "oz.", 5/10, "oz."⟩] =
      Except.ok { recipe_cost := 33/20
                  ingredient_cost := 1
                  subtotal := 53/20
                  q_factor := 4/100
                  q_factor_cost := 53/500
                  total_cost := 689/250 } := by
  have hline : recipeLineCost ⟨"basil", 1, "oz.", 1, "oz."⟩ = 1 := by
    rw [recipeLineCost_skip _ rfl, if_neg (by norm_num),
      round2_eq_intCast_div _ 100 (by norm_num)]
    norm_num
  have hcd := calculate_recipe_cost_ok 2 none [⟨"basil", 1, "oz.", 1, "oz."⟩]
    (by norm_num)
  have hcontrib :
      recipeContribution
        ⟨⟨"sauce", 2, none, [⟨"basil", 1, "oz.", 1, "oz."⟩]⟩, 3, none, none⟩ =
        Except.ok (33/20) := by
    rw [recipeContribution_ok _ _ hcd, Except.ok.injEq]
    show round2 ((([⟨"basil", 1, "oz.", 1, "oz."⟩].map recipeLineCost).sum +
      ([⟨"basil", 1, "oz.", 1, "oz."⟩].map recipeLineCost).sum *
        (none : Option ℚ).getD (10/100)) / 2) * quantityConsumed _ = 33/20
    simp only [List.map_cons, List.map_nil, List.sum_cons, List.sum_nil, hline,
      Option.getD_none, add_zero, quantityConsumed]
    rw [round2_eq_intCast_div _ 55 (by norm_num)]
    norm_num
  have hb : plateLineCost ⟨"bread", 2, "oz.", 5/10, "oz."⟩ = 1 := by
    rw [plateLineCost_skip _ rfl, if_neg (by norm_num),
      round2_eq_intCast_div _ 100 (by norm_num)]
    norm_num
  have hdirect :
      (calculate_plate_cost [⟨"bread", 2, "oz.", 5/10, "oz."⟩]).ingredient_cost = 1 := by
    show round2 (([⟨"bread", 2, "oz.", 5/10, "oz."⟩].map plateLineCost).sum) = 1
    simp only [List.map_cons, List.map_nil, List.sum_cons, List.sum_nil, hb, add_zero]
    rw [round2_eq_intCast_div _ 100 (by norm_num)]
    norm_num
  rw [C2_plate_aggregation.1 none _ _ [33/20]
    (recipeContribs_cons _ _ _ _ hcontrib recipeContribs_nil),
    Except.ok.injEq, PlateDetailCost.mk.injEq]
  simp only [List.sum_cons, List.sum_nil, add_zero, hdirect, Option.getD_none]
  norm_num

/-- C7: for a whole-unit recipe with positive base servings, scaling
computes `unitsNeeded = ceil(target / base)` (the source's
`(target + base - 1) // base` with Python floor division),
`actualServings = unitsNeeded * base`, scales the ingredient cost by
the integer `unitsNeeded`, applies the prep factor to the scaled
amount, and reports `wasteServings = actualServings - target`. -/
theorem C7_whole_unit_scaling (b t : ℤ) (cost pf : ℚ) (hb : 0 < b) :
    scale_recipe_whole_unit b cost pf t =
      { original_servings := b
        new_servings := t
        actual_servings := ⌈(t : ℚ) / (b : ℚ)⌉ * b
        units_needed := ⌈(t : ℚ) / (b : ℚ)⌉
        scale_factor := ⌈(t : ℚ) / (b : ℚ)⌉
        scaled_ingredient_cost := round2 (cost * (⌈(t : ℚ) / (b : ℚ)⌉ : ℚ))
        prep_factor_cost := round2 (cost * (⌈(t : ℚ) / (b : ℚ)⌉ : ℚ) * pf)
        scaled_cost := round2 (cost * (⌈(t : ℚ) / (b : ℚ)⌉ : ℚ) +
          cost * (⌈(t : ℚ) / (b : ℚ)⌉ : ℚ) * pf)
        cost_per_serving := round2 ((cost * (⌈(t : ℚ) / (b : ℚ)⌉ : ℚ) +
          cost * (⌈(t : ℚ) / (b : ℚ)⌉ : ℚ) * pf) / ((⌈(t : ℚ) / (b : ℚ)⌉ * b : ℤ) : ℚ))
        waste_servings := ⌈(t : ℚ) / (b : ℚ)⌉ * b - t } := by
  unfold scale_recipe_whole_unit
  rw [fdiv_eq_ceil t b hb]

/-- Witness for C7, the spec's pie example: `baseServings = 8`,
`targetServings = 10`, base ingredient cost `$16.00`, prep factor
`0.10`: `unitsNeeded = 2`, `actualServings = 16`, scaled ingredient
cost `$32.00` (before surcharge), waste `6` servings. -/
theorem C7_whole_unit_scaling_witness :
    scale_recipe_whole_unit 8 16 (10/100) 10 =
      { original_servings := 8
        new_servings := 10
        actual_servings := 16
        units_needed := 2
        scale_factor := 2
        scaled_ingredient_cost := 32
        prep_factor_cost := 32/10
        scaled_cost := 352/10
        cost_per_serving := 22/10
        waste_servings := 6 } := by
  have hceil : ⌈((10 : ℤ) : ℚ) / ((8 : ℤ) : ℚ)⌉ = 2 := by
    rw [Int.ceil_eq_iff]
    norm_num
  rw [C7_whole_unit_scaling 8 10 16 (10/100) (by norm_num), hceil,
    WholeUnitScale.mk.injEq]
  refine ⟨rfl, rfl, by norm_num, rfl, rfl, ?_, ?_, ?_, ?_, by norm_num⟩
  · rw [round2_eq_intCast_div _ 3200 (by push_cast; norm_num)]; norm_num
  · rw [round2_eq_intCast_div _ 320 (by push_cast; norm_num)]; norm_num
  · rw [round2_eq_intCast_div _ 3520 (by push_cast; norm_num)]; norm_num
  · rw [round2_eq_intCast_div _ 220 (by push_cast; norm_num)]; norm_num

end RMS
